import Mathlib

/-!
Shallow embedding of the utility-accounts payment demo:
the POST /api/processPayment route (zod schema `paymentRequestSchema`),
the GET /api/getAccounts route with its hard-coded account list,
the client-side `paymentSchema` validation rules, the three input
formatters, and the dashboard's `getFilteredAccounts` filter.
-/

/-- The account type enum, from `z.enum(["ELECTRICITY", "GAS"])` and the
`"ELECTRICITY" | "GAS"` union type used by the account records. -/
inductive AccountType where
  | ELECTRICITY
  | GAS
  deriving DecidableEq, Repr

/-- JSON values, as produced by `request.json()` for a well-formed body. -/
inductive Json where
  | str (s : String)
  | num (n : Int)
  | jbool (b : Bool)
  | null
  | arr (elems : List Json)
  | obj (fields : List (String × Json))

/-- The validated payment request, target of `paymentRequestSchema.parse`. -/
structure PaymentRequest where
  amount : String
  cardNumber : String
  expiryDate : String
  cvv : String
  accountId : String
  accountType : AccountType
  deriving DecidableEq, Repr

/-- One entry of a zod error list (`error.errors`): a path and a message. -/
structure ZodIssue where
  path : List String
  message : String
  deriving DecidableEq, Repr

/-- Field lookup on a JSON object (property access on the parsed body). -/
def Json.getField : Json → String → Option Json
  | .obj fields, key => fields.lookup key
  | _, _ => none

/-- Issues raised by a `z.string()` field of the schema: missing key or a
non-string value. -/
def stringFieldIssues (body : Json) (key : String) : List ZodIssue :=
  match body.getField key with
  | none => [⟨[key], "Required"⟩]
  | some (.str _) => []
  | some _ => [⟨[key], "Expected string"⟩]

/-- Issues raised by the `z.enum(["ELECTRICITY", "GAS"])` field. -/
def enumFieldIssues (body : Json) (key : String) (allowed : List String) : List ZodIssue :=
  match body.getField key with
  | none => [⟨[key], "Required"⟩]
  | some (.str s) => if allowed.contains s then [] else [⟨[key], "Invalid enum value"⟩]
  | some _ => [⟨[key], "Invalid enum value"⟩]

/-- The string content of a field, defaulting to "" (only used once the
field is known to be a string). -/
def getStr (body : Json) (key : String) : String :=
  match body.getField key with
  | some (.str s) => s
  | _ => ""

/-- `paymentRequestSchema.parse`: an object with six fields, five plain
strings plus the accountType enum; unknown keys are ignored and all field
issues are collected, mirroring zod's default object behaviour. -/
def paymentRequestSchemaParse (body : Json) : Except (List ZodIssue) PaymentRequest :=
  match body with
  | .obj _ =>
    let issues :=
      stringFieldIssues body "amount" ++ stringFieldIssues body "cardNumber" ++
      stringFieldIssues body "expiryDate" ++ stringFieldIssues body "cvv" ++
      stringFieldIssues body "accountId" ++
      enumFieldIssues body "accountType" ["ELECTRICITY", "GAS"]
    if issues.isEmpty then
      .ok { amount := getStr body "amount", cardNumber := getStr body "cardNumber",
            expiryDate := getStr body "expiryDate", cvv := getStr body "cvv",
            accountId := getStr body "accountId",
            accountType := if getStr body "accountType" = "GAS" then .GAS else .ELECTRICITY }
    else .error issues
  | _ => .error [⟨[], "Expected object"⟩]

/-- Whether the schema accepts the body (no zod issues). -/
def schemaAccepts (j : Json) : Bool :=
  match paymentRequestSchemaParse j with
  | .ok _ => true
  | .error _ => false

/-- The JSON payload and status code returned by the payment route. -/
structure ApiResponse where
  status : Nat
  success : Bool
  message : String
  errors : Option (List ZodIssue)
  deriving DecidableEq, Repr

/-- A request body as the route sees it: either `request.json()` throws
(malformed JSON) or it yields a JSON value. -/
inductive RequestBody where
  | malformed
  | json (body : Json)

/-- The POST handler of app/api/processPayment/route.ts: malformed JSON is
caught by the outer catch (not a ZodError) giving 500; a schema failure is
a ZodError giving 400 with the issue list; otherwise 200 success. -/
def POST : RequestBody → ApiResponse
  | .malformed =>
    { status := 500, success := false, message := "Payment processing failed", errors := none }
  | .json body =>
    match paymentRequestSchemaParse body with
    | .ok _ =>
      { status := 200, success := true, message := "Payment processed successfully", errors := none }
    | .error es =>
      { status := 400, success := false, message := "Invalid payment data", errors := some es }

/-- The JSON body the client submits: six string-valued fields. -/
def mkPaymentJson (amount cardNumber expiryDate cvv accountId accountType : String) : Json :=
  .obj [("amount", .str amount), ("cardNumber", .str cardNumber),
        ("expiryDate", .str expiryDate), ("cvv", .str cvv),
        ("accountId", .str accountId), ("accountType", .str accountType)]

example :
    POST (.json (mkPaymentJson "-5" "x" "y" "z" "A-0001" "ELECTRICITY")) =
      { status := 200, success := true, message := "Payment processed successfully",
        errors := none } := by
  rfl

/-! ## Client-side validation schema (app/utils/validationSchema.ts) -/

/-- The numeric value of a digit character (JS `parseInt` on one digit). -/
def digitVal (c : Char) : Nat := c.toNat - 48

/-- The natural number denoted by a digit string, most significant first. -/
def digitsToNat (l : List Char) : Nat :=
  l.foldl (fun acc c => acc * 10 + digitVal c) 0

/-- Match of the amount regex `\d+(\.\d{1,2})?` anchored at both ends: one
or more digits, optionally a dot followed by one or two digits. -/
def amountRegexMatch (s : String) : Bool :=
  let whole := s.data.takeWhile Char.isDigit
  let rest := s.data.dropWhile Char.isDigit
  !whole.isEmpty &&
    (rest.isEmpty ||
      match rest with
      | '.' :: frac => !frac.isEmpty && frac.length ≤ 2 && frac.all Char.isDigit
      | _ => false)

/-- The amount in hundredths. On a string matching the amount regex this is
100 times the value JS `parseFloat` returns, so `parseFloat(val) > 0` there
is exactly `0 < amountCenti val`. -/
def amountCenti (s : String) : Nat :=
  let whole := s.data.takeWhile Char.isDigit
  let frac := (s.data.dropWhile Char.isDigit).drop 1
  digitsToNat whole * 100 + digitsToNat frac * (if frac.length = 1 then 10 else 1)

/-- The client schema's amount field: nonempty, matches the decimal regex,
and `parseFloat(val) > 0` (rendered via `amountCenti`). -/
def amountFieldChecks (s : String) : Bool :=
  (1 ≤ s.length) && amountRegexMatch s && (0 < amountCenti s)

/-- The client schema's cvv field: nonempty and matching `\d{3,4}` anchored
at both ends. -/
def cvvFieldChecks (s : String) : Bool :=
  (1 ≤ s.length) && (s.length = 3 || s.length = 4) && s.data.all Char.isDigit

/-- Double a digit and subtract 9 when the result exceeds 9, the per-digit
step of the card-number checksum. -/
def luhnDouble (n : Nat) : Nat := if 9 < 2 * n then 2 * n - 9 else 2 * n

/-- Checksum over digits listed from the rightmost: every second digit is
doubled (with 9 subtracted when above 9) before summing. -/
def luhnSum : List Nat → Nat
  | [] => 0
  | [d] => d
  | d1 :: d2 :: rest => d1 + luhnDouble d2 + luhnSum rest

/-- Modelled from the spec: the card-number check performed by the external
"payment" package's `validateCardNumber` (not part of this repository); the
glossary defines Luhn-valid as passing the standard card-number checksum.
Spaces are ignored, the remaining characters must be a nonempty digit
string whose checksum is divisible by 10. -/
def luhnValid (s : String) : Bool :=
  let l := s.data.filter (fun c => c != ' ')
  !l.isEmpty && l.all Char.isDigit && luhnSum ((l.map digitVal).reverse) % 10 = 0

example : luhnValid "4242424242424242" = true := by decide
example : luhnValid "4242424242424243" = false := by decide

/-- A point in time as JS `Date` comparison sees it: a year, a month index
(0 = January; kept as an integer so out-of-range indices normalise), and a
remainder within the month (0 at the month's first instant, positive
later). Comparison is lexicographic, matching millisecond order. -/
structure Instant where
  year : Int
  month : Int
  frac : Nat
  deriving DecidableEq, Repr

/-- Strict order on instants, the JS `<` on Date values. -/
def Instant.jsLt (a b : Instant) : Bool :=
  a.year < b.year ||
    (a.year = b.year && (a.month < b.month || (a.month = b.month && a.frac < b.frac)))

/-- `new Date(y, m)`: the first instant of month m of year y, with the
month index normalised into 0..11 by carrying into the year (JS Date
semantics, e.g. `new Date(2099, 12)` is January 2100). -/
def jsMonthDate (y m : Int) : Instant :=
  { year := y + m / 12, month := m % 12, frac := 0 }

/-- The refine step of the expiryDate field:
`expiry > new Date() && parseInt(month) <= 12` with
`expiry = new Date(2000 + parseInt(year), parseInt(month) - 1)`. -/
def expiryRefine (month year : Nat) (now : Instant) : Bool :=
  Instant.jsLt now (jsMonthDate (2000 + year) ((month : Int) - 1)) && month ≤ 12

/-- The client schema's expiryDate field at current time `now`: nonempty,
matching `\d{2}\/\d{2}` anchored at both ends (five characters, two digit
pairs around a slash), and the refine step on the parsed month and year. -/
def expiryDateValid (s : String) (now : Instant) : Bool :=
  match s.data with
  | [m1, m2, sep, y1, y2] =>
    (m1.isDigit && m2.isDigit && sep == '/' && y1.isDigit && y2.isDigit) &&
      expiryRefine (digitVal m1 * 10 + digitVal m2) (digitVal y1 * 10 + digitVal y2) now
  | _ => false

/-- The digit character of a value below ten. -/
def digitChar (n : Nat) : Char := Char.ofNat (48 + n)

/-- The MM/YY rendering of a month and a two-digit year. -/
def mmyyString (m y : Nat) : String :=
  String.mk [digitChar (m / 10), digitChar (m % 10), '/', digitChar (y / 10), digitChar (y % 10)]

/-- "The year y is in the future relative to now": the current year is
strictly before y. -/
def yearInFuture (y : Int) (now : Instant) : Bool := decide (now.year < y)

example : expiryDateValid "12/99" ⟨2099, 5, 0⟩ = true := by decide
example : expiryDateValid "13/99" ⟨2025, 9, 3⟩ = false := by decide
example : expiryDateValid "01/20" ⟨2025, 9, 3⟩ = false := by decide

/-! ## Input formatters (app/utils/formatters.ts) -/

/-- The greedy regex match `/.{1,4}/g` on a digit-only string: successive
groups of four characters, a shorter final group when fewer remain, and no
group for the empty string. -/
def chunk4 : List Char → List (List Char)
  | [] => []
  | a :: b :: c :: d :: e :: rest => [a, b, c, d] :: chunk4 (e :: rest)
  | l => [l]

/-- `parts.join(" ")`: the groups separated by single spaces. -/
def joinSp : List (List Char) → List Char
  | [] => []
  | [m] => m
  | m :: ms => m ++ ' ' :: joinSp ms

/-- formatCardNumber: `value.replace(/\D/g, "").slice(0, 16)`, then
`match(/.{1,4}/g) || []` joined with spaces. -/
def formatCardNumber (s : String) : String :=
  String.mk (joinSp (chunk4 ((s.data.filter Char.isDigit).take 16)))

/-- formatExpiryDate: `value.replace(/\D/g, "").slice(0, 4)`; with at least
two characters left the first two, a slash, and the rest. -/
def formatExpiryDate (s : String) : String :=
  let cleaned := (s.data.filter Char.isDigit).take 4
  if 2 ≤ cleaned.length then String.mk (cleaned.take 2 ++ '/' :: cleaned.drop 2)
  else String.mk cleaned

/-- formatCVV: `value.replace(/\D/g, "").slice(0, 4)`. -/
def formatCVV (s : String) : String :=
  String.mk ((s.data.filter Char.isDigit).take 4)

example : formatCardNumber "4242-4242 4242x42421111" = "4242 4242 4242 4242" := by decide
example : formatExpiryDate "12/99" = "12/99" := by decide
example : formatExpiryDate "1" = "1" := by decide
example : formatCVV "12a34 5" = "1234" := by decide

/-- A restatement of the spec's words for the card formatter, to compare
with the source embedding: strip non-digits, truncate to 16, group into
chunks of 4 separated by single spaces (grouping phrased by take/drop
recursion and joined with List.intercalate). -/
def chunksOf4 (l : List Char) : List (List Char) :=
  if h : l = [] then [] else l.take 4 :: chunksOf4 (l.drop 4)
termination_by l.length
decreasing_by
  simp only [List.length_drop]
  cases l with
  | nil => exact absurd rfl h
  | cons x xs => simp; omega

/-- A restatement of the spec's words: strip non-digits, truncate to 16,
chunks of 4 joined by single spaces. -/
def formatCardNumberAsSpecified (s : String) : String :=
  String.mk (List.intercalate [' '] (chunksOf4 ((s.data.filter Char.isDigit).take 16)))

/-- A restatement of the spec's words for the expiry formatter: strip
non-digits, truncate to 4, insert a slash after the second digit once at
least two digits are present. -/
def formatExpiryDateAsSpecified (s : String) : String :=
  let cleaned := (s.data.filter Char.isDigit).take 4
  if 2 ≤ cleaned.length then
    String.mk (cleaned.take 2) ++ "/" ++ String.mk (cleaned.drop 2)
  else String.mk cleaned

/-- A restatement of the spec's words for the cvv formatter: strip
non-digits, truncate to 4. -/
def formatCVVAsSpecified (s : String) : String :=
  String.mk ((s.data.filter Char.isDigit).take 4)

/-! ## Account store and listing (GET /api/getAccounts) -/

/-- An account record as served by the API and rendered by the dashboard. -/
structure EnergyAccount where
  id : String
  type : AccountType
  balance : Int
  address : String
  deriving DecidableEq, Repr

/-- The hard-coded account list of app/api/getAccounts (Payment.tsx's
swagger-documented route file). -/
def accounts : List EnergyAccount :=
  [{ id := "A-0001", type := .ELECTRICITY, balance := 30,
     address := "1 Greville Ct, Thomastown, 3076, Victoria" },
   { id := "A-0002", type := .GAS, balance := 0,
     address := "74 Taltarni Rd, Yawong Hills, 3478, Victoria" },
   { id := "A-0003", type := .ELECTRICITY, balance := -40,
     address := "44 William Road, Cresswell Downs, 0862, Northern Territory" },
   { id := "A-0004", type := .ELECTRICITY, balance := 50,
     address := "87 Carolina Park Road, Forresters Beach, 2260, New South Wales" },
   { id := "A-0005", type := .GAS, balance := 25,
     address := "12 Sunset Blvd, Redcliffe, 4020, Queensland" },
   { id := "A-0006", type := .ELECTRICITY, balance := -15,
     address := "3 Ocean View Dr, Torquay, 3228, Victoria" },
   { id := "A-0007", type := .GAS, balance := 0,
     address := "150 Greenway Cres, Mawson Lakes, 5095, South Australia" },
   { id := "A-0008", type := .ELECTRICITY, balance := 120,
     address := "88 Harbour St, Sydney, 2000, New South Wales" },
   { id := "A-0009", type := .GAS, balance := -60,
     address := "22 Boulder Rd, Kalgoorlie, 6430, Western Australia" }]

/-- The response of the account-listing route: a status and the body. -/
structure GetAccountsResponse where
  status : Nat
  body : List EnergyAccount
  deriving DecidableEq, Repr

/-- The GET handler: after the artificial delay it returns
`NextResponse.json(accounts)` (status 200); it reads no input. -/
def GET (_ : Unit) : GetAccountsResponse :=
  { status := 200, body := accounts }

/-! ## Dashboard filter (app/page.tsx, getFilteredAccounts) -/

/-- The dashboard's filter tag union: ALL, ELECTRICITY or GAS. -/
inductive FilterType where
  | ALL
  | ELECTRICITY
  | GAS
  deriving DecidableEq, Repr

/-- JS strict equality `account.type === selectedType` between the account
type string and the filter tag string. -/
def accountTypeMatches (t : AccountType) (sel : FilterType) : Bool :=
  match t, sel with
  | .ELECTRICITY, .ELECTRICITY => true
  | .GAS, .GAS => true
  | _, _ => false

/-- getFilteredAccounts:
`accounts.filter(a => selectedType === "ALL" ? true : a.type === selectedType)`. -/
def getFilteredAccounts (accs : List EnergyAccount) (selectedType : FilterType) :
    List EnergyAccount :=
  accs.filter (fun account =>
    if selectedType = .ALL then true else accountTypeMatches account.type selectedType)

/-! ## Claims about the payment endpoint -/

/-- Claim C1 (counterexample): a request body whose amount is "-5" and
whose other fields are well-typed strings is answered with 200 success and
no errors array, not with the claimed 400 carrying an amount-field error. -/
theorem claim_C1_counterexample :
    POST (.json (mkPaymentJson "-5" "4111111111111111" "12/30" "123" "A-0001" "ELECTRICITY")) =
      { status := 200, success := true, message := "Payment processed successfully",
        errors := none } ∧
    (POST (.json (mkPaymentJson "-5" "4111111111111111" "12/30" "123"
        "A-0001" "ELECTRICITY"))).status ≠ 400 :=
  ⟨rfl, by decide⟩

/-- Claim C1 (amended): the endpoint checks only presence and string type
of the six fields (accountType restricted to ELECTRICITY/GAS), so every
body with amount "-5" and well-typed remaining fields gets 200 success;
the amount rules live in the client-side schema, whose amount field check
rejects "-5". -/
theorem claim_C1 (card expiry cvv accId t : String)
    (ht : t = "ELECTRICITY" ∨ t = "GAS") :
    POST (.json (mkPaymentJson "-5" card expiry cvv accId t)) =
      { status := 200, success := true, message := "Payment processed successfully",
        errors := none } ∧
    amountFieldChecks "-5" = false := by
  rcases ht with rfl | rfl <;> exact ⟨rfl, by decide⟩

/-- Witness for claim C1's amended theorem at a concrete body. -/
theorem claim_C1_witness :
    ((("GAS" : String) = "ELECTRICITY" ∨ ("GAS" : String) = "GAS") ∧
      (POST (.json (mkPaymentJson "-5" "x" "y" "z" "A-0002" "GAS")) =
        { status := 200, success := true, message := "Payment processed successfully",
          errors := none } ∧
       amountFieldChecks "-5" = false)) :=
  ⟨Or.inr rfl, claim_C1 "x" "y" "z" "A-0002" "GAS" (Or.inr rfl)⟩

/-- Claim C2: for every body carrying the six fields as strings of
arbitrary content, with accountType one of ELECTRICITY/GAS, the endpoint
answers 200 with success — the server-side schema never inspects the
contents of the five free string fields. -/
theorem claim_C2 (amount card expiry cvv accId t : String)
    (ht : t = "ELECTRICITY" ∨ t = "GAS") :
    POST (.json (mkPaymentJson amount card expiry cvv accId t)) =
      { status := 200, success := true, message := "Payment processed successfully",
        errors := none } := by
  rcases ht with rfl | rfl <;> rfl

/-- Witness for claim C2 at a concrete body with garbage field contents. -/
theorem claim_C2_witness :
    ((("ELECTRICITY" : String) = "ELECTRICITY" ∨ ("ELECTRICITY" : String) = "GAS") ∧
      POST (.json (mkPaymentJson "-5" "not a card" "99/99" "x" "whatever" "ELECTRICITY")) =
        { status := 200, success := true, message := "Payment processed successfully",
          errors := none }) :=
  ⟨Or.inl rfl, claim_C2 "-5" "not a card" "99/99" "x" "whatever" "ELECTRICITY" (Or.inl rfl)⟩

/-- Claim C3: a body with amount "50.00", a Luhn-valid card number, an
expiry date valid at the current time, a valid 3-4 digit cvv, any
accountId string and accountType ELECTRICITY or GAS is answered with 200
and the success message. -/
theorem claim_C3 (now : Instant) (card expiry cvv accId t : String)
    (hLuhn : luhnValid card = true)
    (hExpiry : expiryDateValid expiry now = true)
    (hCvv : cvvFieldChecks cvv = true)
    (ht : t = "ELECTRICITY" ∨ t = "GAS") :
    POST (.json (mkPaymentJson "50.00" card expiry cvv accId t)) =
      { status := 200, success := true, message := "Payment processed successfully",
        errors := none } := by
  rcases ht with rfl | rfl <;> rfl

/-- Witness for claim C3: the documented example card number, a future
expiry relative to October 2025, and cvv "123". -/
theorem claim_C3_witness :
    (luhnValid "4242424242424242" = true ∧
     expiryDateValid "12/30" ⟨2025, 9, 3⟩ = true ∧
     cvvFieldChecks "123" = true ∧
     (("ELECTRICITY" : String) = "ELECTRICITY" ∨ ("ELECTRICITY" : String) = "GAS") ∧
     POST (.json (mkPaymentJson "50.00" "4242424242424242" "12/30" "123"
         "A-0001" "ELECTRICITY")) =
       { status := 200, success := true, message := "Payment processed successfully",
         errors := none }) :=
  ⟨by decide, by decide, by decide, Or.inl rfl,
    claim_C3 ⟨2025, 9, 3⟩ "4242424242424242" "12/30" "123" "A-0001" "ELECTRICITY"
      (by decide) (by decide) (by decide) (Or.inl rfl)⟩

/-- Claim C4: a request whose body is not well-formed JSON is answered 500
with success false, the generic message and no errors array; for parsed
bodies, status 400 holds exactly when the schema rejects, and an errors
array is present exactly on status 400. -/
theorem claim_C4 :
    POST .malformed =
      { status := 500, success := false, message := "Payment processing failed",
        errors := none } ∧
    ∀ j : Json,
      ((POST (.json j)).status = 400 ↔ schemaAccepts j = false) ∧
      ((POST (.json j)).errors.isSome = true ↔ (POST (.json j)).status = 400) := by
  refine ⟨rfl, fun j => ?_⟩
  cases h : paymentRequestSchemaParse j <;> simp [POST, schemaAccepts, h]

/-! ## Claims about the account listing and the dashboard filter -/

/-- Claim C5: filtering with ALL is the identity, and for a non-ALL tag
every account in the filtered list is in the input list and has the tag's
type. -/
theorem claim_C5 (L : List EnergyAccount) (T : FilterType) (hT : T ≠ FilterType.ALL) :
    getFilteredAccounts L FilterType.ALL = L ∧
    (getFilteredAccounts L T).all
      (fun a => decide (a ∈ L) && accountTypeMatches a.type T) = true := by
  constructor
  · simp [getFilteredAccounts]
  · rw [List.all_eq_true]
    intro a ha
    rcases List.mem_filter.mp ha with ⟨hmem, hpred⟩
    rw [if_neg hT] at hpred
    simp [hmem, hpred]

/-- Witness for claim C5 on the hard-coded account list with the GAS tag. -/
theorem claim_C5_witness :
    (FilterType.GAS ≠ FilterType.ALL) ∧
    (getFilteredAccounts accounts FilterType.ALL = accounts ∧
     (getFilteredAccounts accounts FilterType.GAS).all
       (fun a => decide (a ∈ accounts) && accountTypeMatches a.type FilterType.GAS) = true) :=
  ⟨by decide, claim_C5 accounts FilterType.GAS (by decide)⟩

/-- Claim C10: every invocation of the account-listing route returns the
same response, namely status 200 with the nine hard-coded records in
order, ids A-0001 through A-0009, with their signed balances and each
typed ELECTRICITY or GAS. -/
theorem claim_C10 :
    (∀ u v : Unit, GET u = GET v) ∧
    GET () = { status := 200, body := accounts } ∧
    accounts.length = 9 ∧
    accounts.map EnergyAccount.id =
      ["A-0001", "A-0002", "A-0003", "A-0004", "A-0005",
       "A-0006", "A-0007", "A-0008", "A-0009"] ∧
    accounts.map EnergyAccount.balance = [30, 0, -40, 50, 25, -15, 0, 120, -60] ∧
    accounts.map EnergyAccount.type =
      [.ELECTRICITY, .GAS, .ELECTRICITY, .ELECTRICITY, .GAS,
       .ELECTRICITY, .GAS, .ELECTRICITY, .GAS] :=
  ⟨fun _ _ => rfl, rfl, rfl, rfl, rfl, rfl⟩

/-! ## Claims about the formatters -/

/-- Concatenating the groups of `chunk4` recovers the input. -/
theorem chunk4_flatten (l : List Char) : (chunk4 l).flatten = l := by
  induction l using chunk4.induct <;> simp_all [chunk4]

/-- Filtering the space-joined groups for digits recovers the concatenated
groups when every grouped character is a digit. -/
theorem filter_isDigit_joinSp (ms : List (List Char))
    (h : ∀ m ∈ ms, ∀ c ∈ m, c.isDigit = true) :
    (joinSp ms).filter Char.isDigit = ms.flatten := by
  induction ms using joinSp.induct with
  | case1 => rfl
  | case2 m =>
    simp [joinSp, List.filter_eq_self.mpr (h m (by simp))]
  | case3 m m2 hne ih =>
    cases m2 with
    | nil => exact absurd rfl hne
    | cons x xs =>
      have hm : ∀ c ∈ m, c.isDigit = true := h m (by simp)
      have hrest : ∀ t ∈ x :: xs, ∀ c ∈ t, c.isDigit = true := fun t ht =>
        h t (List.mem_cons_of_mem m ht)
      have hsp : Char.isDigit ' ' = false := rfl
      show (m ++ ' ' :: joinSp (x :: xs)).filter Char.isDigit = m ++ (x :: xs).flatten
      rw [List.filter_append, List.filter_eq_self.mpr hm, List.filter_cons, hsp,
        if_neg (by simp), ih hrest]

/-- Every character appearing in a group of `chunk4 l` is a character of
`l`. -/
theorem chunk4_all_digits {l : List Char} (hl : ∀ c ∈ l, c.isDigit = true) :
    ∀ m ∈ chunk4 l, ∀ c ∈ m, c.isDigit = true := by
  intro m hm c hc
  apply hl
  have hcj : c ∈ (chunk4 l).flatten := List.mem_flatten.mpr ⟨m, hm, hc⟩
  rwa [chunk4_flatten] at hcj

/-- Claim C6: the card-number formatter is idempotent. -/
theorem claim_C6 (s : String) :
    formatCardNumber (formatCardNumber s) = formatCardNumber s := by
  have hd : ∀ c ∈ (s.data.filter Char.isDigit).take 16, c.isDigit = true := fun c hc =>
    List.of_mem_filter (List.mem_of_mem_take hc)
  show String.mk (joinSp (chunk4
      (((joinSp (chunk4 ((s.data.filter Char.isDigit).take 16))).filter
        Char.isDigit).take 16))) = _
  rw [filter_isDigit_joinSp _ (chunk4_all_digits hd), chunk4_flatten, List.take_take,
    min_self]
  rfl

/-- The take/drop grouping of a short nonempty list is a single group. -/
theorem chunksOf4_short {l : List Char} (hlen : l.length ≤ 4) (hne : l ≠ []) :
    chunksOf4 l = [l] := by
  unfold chunksOf4
  rw [dif_neg hne, List.take_of_length_le hlen, List.drop_eq_nil_of_le hlen]
  unfold chunksOf4
  rfl

/-- The source's group function agrees with the spec-worded take/drop
grouping. -/
theorem chunk4_eq_chunksOf4 (l : List Char) : chunk4 l = chunksOf4 l := by
  induction l using chunk4.induct with
  | case1 => unfold chunksOf4; rfl
  | case2 a b c d e rest ih =>
    show [a, b, c, d] :: chunk4 (e :: rest) = chunksOf4 (a :: b :: c :: d :: e :: rest)
    unfold chunksOf4
    rw [dif_neg (by simp)]
    rw [ih]
    rfl
  | case3 l hne hnot5 =>
    rcases l with _ | ⟨a, _ | ⟨b, _ | ⟨c, _ | ⟨d, _ | ⟨e, rest⟩⟩⟩⟩⟩
    · exact absurd rfl hne
    · rw [chunksOf4_short (by simp) (by simp)]; rfl
    · rw [chunksOf4_short (by simp) (by simp)]; rfl
    · rw [chunksOf4_short (by simp) (by simp)]; rfl
    · rw [chunksOf4_short (by simp) (by simp)]; rfl
    · exact absurd rfl (hnot5 a b c d e rest)

/-- The source's space join agrees with `List.intercalate [' ']`. -/
theorem joinSp_eq_intercalate (ms : List (List Char)) :
    joinSp ms = List.intercalate [' '] ms := by
  induction ms using joinSp.induct with
  | case1 => simp [joinSp, List.intercalate]
  | case2 m => simp [joinSp, List.intercalate]
  | case3 m m2 hne ih =>
    cases m2 with
    | nil => exact absurd rfl hne
    | cons x xs =>
      show m ++ ' ' :: joinSp (x :: xs) = List.intercalate [' '] (m :: x :: xs)
      rw [ih]
      simp [List.intercalate, List.intersperse_cons_cons]

/-- Claim C7: each formatter behaves exactly as the spec words it: strip
non-digits and truncate (16 for card, 4 for expiry and cvv), group the
card digits into chunks of 4 separated by single spaces, and insert a
slash after the second expiry digit once two digits are present. -/
theorem claim_C7 (s : String) :
    formatCardNumber s = formatCardNumberAsSpecified s ∧
    formatExpiryDate s = formatExpiryDateAsSpecified s ∧
    formatCVV s = formatCVVAsSpecified s := by
  refine ⟨?_, ?_, rfl⟩
  · show String.mk (joinSp (chunk4 ((s.data.filter Char.isDigit).take 16))) = _
    rw [joinSp_eq_intercalate, chunk4_eq_chunksOf4]
    rfl
  · unfold formatExpiryDate formatExpiryDateAsSpecified
    by_cases h : 2 ≤ ((s.data.filter Char.isDigit).take 4).length
    · simp only [h, if_true]
      show String.mk (_ ++ '/' :: _) = String.mk (_ ++ ['/'] ++ _)
      simp
    · simp only [h, if_false]

/-! ## Claims about the expiry-date rule -/

/-- JS Date comparison is asymmetric: if a is before b then b is not
before a. -/
theorem jsLt_asymm {a b : Instant} (h : a.jsLt b = true) : b.jsLt a = false := by
  cases hb : b.jsLt a with
  | false => rfl
  | true =>
    exfalso
    simp only [Instant.jsLt, Bool.or_eq_true, Bool.and_eq_true, decide_eq_true_eq] at h hb
    omega

/-- Claim C8 (counterexample): in June 2099 the code accepts "12/99" even
though the year 2099 is not in the future, so acceptance of "12/99" is not
equivalent to the year 2099 being in the future. -/
theorem claim_C8_counterexample :
    expiryDateValid "12/99" ⟨2099, 5, 0⟩ = true ∧
    yearInFuture 2099 ⟨2099, 5, 0⟩ = false := by
  decide

/-- Claim C8 (amended): with January 2020 in the past, "13/99" is rejected
(month above 12), "01/20" is rejected, and "12/99" is accepted exactly when
the current instant is strictly before the first instant of December
2099. -/
theorem claim_C8 (now : Instant)
    (hpast : Instant.jsLt (jsMonthDate 2020 0) now = true) :
    expiryDateValid "13/99" now = false ∧
    expiryDateValid "01/20" now = false ∧
    expiryDateValid "12/99" now = Instant.jsLt now (jsMonthDate 2099 11) := by
  refine ⟨?_, ?_, ?_⟩
  · have e1 : expiryDateValid "13/99" now =
        (Instant.jsLt now (jsMonthDate 2099 12) && false) := rfl
    rw [e1, Bool.and_false]
  · have e2 : expiryDateValid "01/20" now =
        (Instant.jsLt now (jsMonthDate 2020 0) && true) := rfl
    rw [e2, Bool.and_true]
    exact jsLt_asymm hpast
  · have e3 : expiryDateValid "12/99" now =
        (Instant.jsLt now (jsMonthDate 2099 11) && true) := rfl
    rw [e3, Bool.and_true]

/-- Witness for claim C8's amended theorem in October 2025. -/
theorem claim_C8_witness :
    (Instant.jsLt (jsMonthDate 2020 0) ⟨2025, 9, 3⟩ = true) ∧
    (expiryDateValid "13/99" ⟨2025, 9, 3⟩ = false ∧
     expiryDateValid "01/20" ⟨2025, 9, 3⟩ = false ∧
     expiryDateValid "12/99" ⟨2025, 9, 3⟩ = Instant.jsLt ⟨2025, 9, 3⟩ (jsMonthDate 2099 11)) :=
  ⟨by decide, claim_C8 ⟨2025, 9, 3⟩ (by decide)⟩

/-- Digit characters are digits and carry their value. -/
theorem digitChar_spec : ∀ k < 10, (digitChar k).isDigit = true ∧ digitVal (digitChar k) = k := by
  decide

example : mmyyString 12 99 = "12/99" := by decide

/-- Claim C9: the client-side expiry check rejects an expiry equal to the
current month and year, because the parsed expiry is the first instant of
its month and must compare strictly greater than the current instant. -/
theorem claim_C9 (now : Instant) (m y : Nat)
    (hm1 : 1 ≤ m) (hm2 : m ≤ 12) (hy : y ≤ 99)
    (hYear : now.year = 2000 + y) (hMonth : now.month = (m : Int) - 1) :
    expiryDateValid (mmyyString m y) now = false := by
  obtain ⟨d1, v1⟩ := digitChar_spec (m / 10) (by omega)
  obtain ⟨d2, v2⟩ := digitChar_spec (m % 10) (by omega)
  obtain ⟨d3, v3⟩ := digitChar_spec (y / 10) (by omega)
  obtain ⟨d4, v4⟩ := digitChar_spec (y % 10) (by omega)
  show (((digitChar (m / 10)).isDigit && (digitChar (m % 10)).isDigit && ('/' == '/') &&
      (digitChar (y / 10)).isDigit && (digitChar (y % 10)).isDigit) &&
    expiryRefine (digitVal (digitChar (m / 10)) * 10 + digitVal (digitChar (m % 10)))
      (digitVal (digitChar (y / 10)) * 10 + digitVal (digitChar (y % 10))) now) = false
  rw [d1, d2, d3, d4, v1, v2, v3, v4]
  have hmv : m / 10 * 10 + m % 10 = m := by omega
  have hyv : y / 10 * 10 + y % 10 = y := by omega
  rw [hmv, hyv]
  simp only [Bool.and_true, Bool.true_and, beq_self_eq_true]
  have hlt : Instant.jsLt now (jsMonthDate (2000 + y) ((m : Int) - 1)) = false := by
    cases hb : Instant.jsLt now (jsMonthDate (2000 + y) ((m : Int) - 1)) with
    | false => rfl
    | true =>
      exfalso
      simp only [Instant.jsLt, jsMonthDate, Bool.or_eq_true, Bool.and_eq_true,
        decide_eq_true_eq] at hb
      omega
  rw [expiryRefine, hlt, Bool.false_and]

/-- Witness for claim C9: an expiry of 12/99 during December 2099. -/
theorem claim_C9_witness :
    (1 ≤ 12 ∧ 12 ≤ 12 ∧ 99 ≤ 99 ∧
     (⟨2099, 11, 7⟩ : Instant).year = 2000 + (99 : Nat) ∧
     (⟨2099, 11, 7⟩ : Instant).month = ((12 : Nat) : Int) - 1) ∧
    expiryDateValid (mmyyString 12 99) ⟨2099, 11, 7⟩ = false :=
  ⟨⟨by omega, by omega, by omega, by decide, by decide⟩,
    claim_C9 ⟨2099, 11, 7⟩ 12 99 (by omega) (by omega) (by omega) (by decide) (by decide)⟩
